import Mathlib

/-!
Shallow embedding of `find_trna_syn_genes.py`.

The script is a sequential loop of HTTP requests with client-side
filtering and a CSV export.  We model the remote Ensembl service as an
environment `Env` mapping each request to its outcome (a status code and
parsed JSON body, or a raised transport exception), and the program as a
pure function of that environment which returns its result together with
a trace of observable events (console prints, sleeps, HTTP calls, the
CSV write).  Python exceptions that can escape the driver are modelled
with `Except PyExn`.
-/

/-- A Python exception that can escape the search driver.  The only such
exception in the embedded fragment is the `TypeError` raised by
"`pattern in None`" when a lookup response lacks `display_name`. -/
inductive PyExn where
  | typeError (msg : String)
deriving DecidableEq

/-- Message of the `TypeError` raised by Python for "`x in None`". -/
def tyErrMsg : String := "argument of type NoneType is not iterable"

/-- A cross-reference returned by `/xrefs/symbol`; the script only reads
`gene.get('id')`, which may be absent (`none`). -/
structure GeneXref where
  id : Option String
deriving DecidableEq

/-- A lookup response from `/lookup/id/{gene_id}?expand=1`; every field is
read with `.get(...)`, hence `Option`. -/
structure GeneInfo where
  id : Option String
  display_name : Option String
  description : Option String
  seq_region_name : Option String
  start : Option Int
  «end» : Option Int
  strand : Option Int
  biotype : Option String
deriving DecidableEq

/-- A row appended to `all_genes` (and later a row of the DataFrame). -/
structure GeneRecord where
  gene_id : Option String
  symbol : Option String
  description : Option String
  chromosome : Option String
  start : Option Int
  «end» : Option Int
  strand : Option Int
  biotype : Option String
deriving DecidableEq

/-- Outcome of one `requests.get` call: either a response carrying an HTTP
status code and an already-parsed JSON body, or a raised
`requests.exceptions.RequestException` with its message. -/
inductive Response (α : Type) where
  | ok (status : Nat) (body : α)
  | exn (msg : String)

/-- The remote service: one outcome per search query and one per lookup
identifier.  The lookup key is `Option String` because the script calls
`get_gene_info(gene.get('id'))` without guarding against a missing id. -/
structure Env where
  search : String → Response (List GeneXref)
  lookup : Option String → Response GeneInfo

/-- Observable events of a run, in program order. -/
inductive Event where
  | print (s : String)
  | sleep (ms : Nat)
  | searchCall (query : String)
  | lookupCall (gene_id : Option String)
  | writeCsv (path : String) (rows : List GeneRecord)
deriving DecidableEq

/-- `listStartsWith p l` holds when `p` is an initial segment of `l`. -/
def listStartsWith : List Char → List Char → Bool
  | [], _ => true
  | _ :: _, [] => false
  | a :: as, b :: bs => a == b && listStartsWith as bs

/-- `listHasSub p l` holds when `p` occurs contiguously inside `l`. -/
def listHasSub (pat : List Char) : List Char → Bool
  | [] => listStartsWith pat []
  | c :: cs => listStartsWith pat (c :: cs) || listHasSub pat cs

/-- Python's `pat in s` on strings: substring containment. -/
def pyInStr (pat s : String) : Bool := listHasSub pat.data s.data

/-- Python: `[str(i) for i in range(1,23)] + ['X', 'Y', 'MT']`. -/
def canonical_chromosomes : List String :=
  ((List.range 22).map fun i => toString (i + 1)) ++ ["X", "Y", "MT"]

/-- Python's `chromosome in [...]` where `chromosome` may be `None`
(`None` compares unequal to every string, so the test is `False`). -/
def chromOk : Option String → Bool
  | some c => decide (c ∈ canonical_chromosomes)
  | none => false

/-- `response.raise_for_status()`: returns the message of the raised
`HTTPError` for a 4xx/5xx status, `none` otherwise. -/
def raise_for_status (status : Nat) : Option String :=
  if 400 ≤ status ∧ status < 500 then some (toString status ++ " Client Error")
  else if 500 ≤ status ∧ status < 600 then some (toString status ++ " Server Error")
  else none

/-- `EnsemblAPI.search_genes`: GET `/xrefs/symbol/{species}/{query}?`;
on a raised `RequestException` (transport failure or `raise_for_status`)
prints a diagnostic and returns `None`; otherwise returns the parsed
body.  The try/except catches exactly these failures, so the wrapper
never raises to its caller - its result type has no exception side. -/
def search_genes (env : Env) (query : String) : Option (List GeneXref) × List Event :=
  match env.search query with
  | .exn e => (none, [.searchCall query, .print ("Error querying Ensembl: " ++ e)])
  | .ok status body =>
    match raise_for_status status with
    | some e => (none, [.searchCall query, .print ("Error querying Ensembl: " ++ e)])
    | none => (some body, [.searchCall query])

/-- `EnsemblAPI.get_gene_info`: GET `/lookup/id/{gene_id}?expand=1`; same
error contract as `search_genes`. -/
def get_gene_info (env : Env) (gene_id : Option String) : Option GeneInfo × List Event :=
  match env.lookup gene_id with
  | .exn e => (none, [.lookupCall gene_id, .print ("Error fetching gene info: " ++ e)])
  | .ok status body =>
    match raise_for_status status with
    | some e => (none, [.lookupCall gene_id, .print ("Error fetching gene info: " ++ e)])
    | none => (some body, [.lookupCall gene_id])

/-- The 37 hardcoded search patterns. -/
def patterns : List String :=
  [ "AARS1", "AARS2", "CARS1", "CARS2", "DARS1", "DARS2", "EARS2",
    "EPRS1", "FARSA", "FARSB", "FARS2", "GARS1", "HARS1", "HARS2",
    "IARS1", "IARS2", "KARS1", "LARS1", "LARS2", "MARS1", "MARS2",
    "NARS1", "NARS2", "PARS2", "QARS1", "RARS1", "RARS2", "SARS1",
    "SARS2", "TARS1", "TARS2", "VARS1", "VARS2", "WARS1", "WARS2",
    "YARS1", "YARS2" ]

/-- The dict appended to `all_genes` for a lookup that passed both
filters. -/
def mkRecord (info : GeneInfo) : GeneRecord :=
  { gene_id := info.id
  , symbol := info.display_name
  , description := info.description
  , chromosome := info.seq_region_name
  , start := info.start
  , «end» := info.«end»
  , strand := info.strand
  , biotype := info.biotype }

/-- The inner `for gene in genes:` loop.  For each cross-reference the
script performs the detail lookup with `gene.get('id')` (no guard on the
presence of `id`); if the lookup returned a record, it evaluates
`pattern in gene_info.get('display_name')` - which raises `TypeError`
when `display_name` is absent - and on both filters passing appends a
row; finally it sleeps 0.1 s (the sleep is inside this loop, and is
skipped when the `TypeError` aborts the iteration). -/
def processXrefs (env : Env) (pattern : String) (acc : List GeneRecord) :
    List GeneXref → Except PyExn (List GeneRecord) × List Event
  | [] => (.ok acc, [])
  | g :: rest =>
    let gi := get_gene_info env g.id
    match gi.1 with
    | some info =>
      match info.display_name with
      | none => (.error (.typeError tyErrMsg), gi.2)
      | some dn =>
        let acc2 := if pyInStr pattern dn && chromOk info.seq_region_name
                    then acc ++ [mkRecord info] else acc
        let r := processXrefs env pattern acc2 rest
        (r.1, gi.2 ++ Event.sleep 100 :: r.2)
    | none =>
      let r := processXrefs env pattern acc rest
      (r.1, gi.2 ++ Event.sleep 100 :: r.2)

/-- The outer `for pattern in patterns:` loop: print progress, search,
and - only when the search result is truthy (not `None`, not `[]`) -
process its cross-references. -/
def processPatterns (env : Env) (acc : List GeneRecord) :
    List String → Except PyExn (List GeneRecord) × List Event
  | [] => (.ok acc, [])
  | p :: rest =>
    let pr := Event.print ("Searching for " ++ p ++ "...")
    let sg := search_genes env p
    match sg.1 with
    | some (g :: gs) =>
      let px := processXrefs env p acc (g :: gs)
      match px.1 with
      | .ok acc2 =>
        let r := processPatterns env acc2 rest
        (r.1, pr :: sg.2 ++ px.2 ++ r.2)
      | .error e => (.error e, pr :: sg.2 ++ px.2)
    | _ =>
      let r := processPatterns env acc rest
      (r.1, pr :: sg.2 ++ r.2)

/-- `df.drop_duplicates(subset=['gene_id'])`: keep each row whose
`gene_id` key has not been seen earlier (pandas' default `keep='first'`;
`NaN` keys compare equal to each other, like `none = none` here). -/
def drop_duplicates (seen : List (Option String)) : List GeneRecord → List GeneRecord
  | [] => []
  | r :: rs =>
    if r.gene_id ∈ seen then drop_duplicates seen rs
    else r :: drop_duplicates (r.gene_id :: seen) rs

/-- `search_trna_synthetases()`: run the loops; if the accumulator is
non-empty, build the DataFrame and deduplicate; otherwise return `None`. -/
def search_trna_synthetases (env : Env) :
    Except PyExn (Option (List GeneRecord)) × List Event :=
  match processPatterns env [] patterns with
  | (.error e, ev) => (.error e, ev)
  | (.ok [], ev) => (.ok none, ev)
  | (.ok (g :: gs), ev) => (.ok (some (drop_duplicates [] (g :: gs))), ev)

/-- Rendering of an optional string in the console preview. -/
def showOptStr : Option String → String
  | some s => s
  | none => "NaN"

/-- Rendering of an optional integer in the console preview. -/
def showOptInt : Option Int → String
  | some i => toString i
  | none => "NaN"

/-- `results[['symbol','chromosome','start','end','description']].head()`:
first five rows of the selected columns. -/
def previewString (df : List GeneRecord) : String :=
  String.intercalate "\x0a" ((df.take 5).map fun r =>
    showOptStr r.symbol ++ " " ++ showOptStr r.chromosome ++ " " ++
    showOptInt r.start ++ " " ++ showOptInt r.«end» ++ " " ++
    showOptStr r.description)

/-- `main()`: run the driver; on a table print the count, a preview and
write the CSV; on `None` print the no-results message.  An exception
from the driver propagates (the script has no try/except here). -/
def mainEntry (env : Env) : Except PyExn Unit × List Event :=
  match search_trna_synthetases env with
  | (.error e, ev) =>
    (.error e, Event.print "Searching for tRNA synthetase genes in Ensembl..." :: ev)
  | (.ok none, ev) =>
    (.ok (), Event.print "Searching for tRNA synthetase genes in Ensembl..." :: ev ++
      [Event.print "No results found or error occurred"])
  | (.ok (some results), ev) =>
    (.ok (), Event.print "Searching for tRNA synthetase genes in Ensembl..." :: ev ++
      [ Event.print ("\x0aFound " ++ toString results.length ++ " tRNA synthetase genes")
      , Event.print "\x0aFirst few results:"
      , Event.print (previewString results)
      , Event.writeCsv "trna_synthetase_genes_ensembl.csv" results
      , Event.print "\x0aResults saved to trna_synthetase_genes_ensembl.csv" ])

/-- Number of `sleep` events in a trace. -/
def countSleeps : List Event → Nat
  | [] => 0
  | Event.sleep _ :: es => countSleeps es + 1
  | _ :: es => countSleeps es

/-- Number of `writeCsv` events in a trace. -/
def countWrites : List Event → Nat
  | [] => 0
  | Event.writeCsv _ _ :: es => countWrites es + 1
  | _ :: es => countWrites es

/-- The identifiers passed to the lookup endpoint, in call order. -/
def lookupCalls : List Event → List (Option String)
  | [] => []
  | Event.lookupCall i :: es => i :: lookupCalls es
  | _ :: es => lookupCalls es

/-- Number of cross-references a pattern contributes to the inner loop:
the length of a truthy search result, `0` for `None` or `[]`. -/
def xrefBudget (env : Env) (q : String) : Nat :=
  match (search_genes env q).1 with
  | some (g :: gs) => (g :: gs).length
  | _ => 0

/-! ### Concrete environments used by counterexamples and witnesses -/

/-- A well-formed lookup record for AARS1 on chromosome 16. -/
def infoAARS1 : GeneInfo :=
  { id := some "ENSG00000090861"
  , display_name := some "AARS1"
  , description := some "alanyl-tRNA synthetase 1"
  , seq_region_name := some "16"
  , start := some 70318116
  , «end» := some 70322688
  , strand := some (-1)
  , biotype := some "protein_coding" }

/-- A lookup record with no `display_name` field. -/
def infoNoName : GeneInfo :=
  { id := some "ENSG00000090861"
  , display_name := none
  , description := some "alanyl-tRNA synthetase 1"
  , seq_region_name := some "16"
  , start := some 70318116
  , «end» := some 70322688
  , strand := some (-1)
  , biotype := some "protein_coding" }

/-- Environment in which the first pattern's search returns one
cross-reference whose lookup lacks `display_name`; every other search
fails at transport level. -/
def envMissingDisplay : Env :=
  { search := fun q =>
      if q = "AARS1" then .ok 200 [{ id := some "ENSG00000090861" }]
      else .exn "connection refused"
  , lookup := fun _ => .ok 200 infoNoName }

/-- Lookup record on the non-canonical region `16_random_scaffold`. -/
def infoScaffold : GeneInfo :=
  { infoAARS1 with id := some "ENSG_SC", seq_region_name := some "16_random_scaffold" }

/-- Lookup record with no `seq_region_name` field. -/
def infoNoChrom : GeneInfo :=
  { infoAARS1 with id := some "ENSG_NC", seq_region_name := none }

/-- Environment exercising the chromosome filter: one canonical hit, one
scaffold hit, one hit with a missing `seq_region_name`. -/
def envChrom : Env :=
  { search := fun q =>
      if q = "AARS1" then
        .ok 200 [ { id := some "ENSG00000090861" }
                , { id := some "ENSG_SC" }
                , { id := some "ENSG_NC" } ]
      else .exn "connection refused"
  , lookup := fun i =>
      if i = some "ENSG00000090861" then .ok 200 infoAARS1
      else if i = some "ENSG_SC" then .ok 200 infoScaffold
      else .ok 200 infoNoChrom }

/-- Lookup record whose display name strictly contains pattern AARS1. -/
def infoPseudo : GeneInfo :=
  { infoAARS1 with id := some "ENSG_PS", display_name := some "AARS1P1" }

/-- Environment in which the AARS1 search resolves to a pseudogene whose
symbol strictly contains the pattern. -/
def envPseudo : Env :=
  { search := fun q =>
      if q = "AARS1" then .ok 200 [{ id := some "ENSG_PS" }]
      else .exn "connection refused"
  , lookup := fun _ => .ok 200 infoPseudo }

/-- Lookup record whose display name contains both AARS1 and CARS1. -/
def infoShared : GeneInfo :=
  { infoAARS1 with id := some "ENSG0001", display_name := some "AARS1CARS1" }

/-- Environment in which two different patterns resolve to the same
cross-reference id, whose lookup passes both filters for both. -/
def envDup : Env :=
  { search := fun q =>
      if q = "AARS1" ∨ q = "CARS1" then .ok 200 [{ id := some "ENSG0001" }]
      else .exn "connection refused"
  , lookup := fun _ => .ok 200 infoShared }

/-- Environment for the wrapper contract: the search transport fails,
lookups answer 404 for unknown ids and 200 for the known one. -/
def envWrap : Env :=
  { search := fun q =>
      if q = "AARS1" then .ok 200 [{ id := some "ENSG00000090861" }]
      else .exn "read timeout"
  , lookup := fun i =>
      if i = some "ENSG00000090861" then .ok 200 infoAARS1
      else .ok 404 infoAARS1 }

/-- Environment in which every request fails at transport level. -/
def envAllFail : Env :=
  { search := fun _ => .exn "connection refused"
  , lookup := fun _ => .exn "connection refused" }

/-- Second cross-reference target for the two-xref environment. -/
def infoAARS1B : GeneInfo :=
  { infoAARS1 with id := some "ENSG_B", display_name := some "AARS1P2" }

/-- Environment in which the AARS1 search returns two cross-references
(both lookups succeed) and every other search fails. -/
def envTwoXrefs : Env :=
  { search := fun q =>
      if q = "AARS1" then .ok 200 [{ id := some "ENSG00000090861" }, { id := some "ENSG_B" }]
      else .exn "connection refused"
  , lookup := fun i =>
      if i = some "ENSG00000090861" then .ok 200 infoAARS1
      else .ok 200 infoAARS1B }

/-- Environment in which the search returns a cross-reference that has no
`id` field and the lookup of the null identifier fails with 404. -/
def envNullId : Env :=
  { search := fun q =>
      if q = "AARS1" then .ok 200 [{ id := none }]
      else .exn "connection refused"
  , lookup := fun i =>
      if i = some "ENSG00000090861" then .ok 200 infoAARS1
      else .ok 404 infoAARS1 }

/-- Environment for counting sleeps: AARS1 yields three cross-references
(one failing lookup, one filtered out, one kept), CARS1 yields an empty
list, every other search fails. -/
def envMixed : Env :=
  { search := fun q =>
      if q = "AARS1" then
        .ok 200 [ { id := some "ENSG00000090861" }
                , { id := some "ENSG_SC" }
                , { id := some "ENSG_404" } ]
      else if q = "CARS1" then .ok 200 []
      else .exn "connection refused"
  , lookup := fun i =>
      if i = some "ENSG00000090861" then .ok 200 infoAARS1
      else if i = some "ENSG_SC" then .ok 200 infoScaffold
      else .ok 404 infoAARS1 }

/-! ### Helper predicates and lemmas -/

/-- `r` is a row produced inside the inner loop over `xs` for pattern
`p`: some cross-reference's lookup returned `info`, `r` is its
projection, and both inclusion filters passed. -/
def fromLookup (env : Env) (p : String) (xs : List GeneXref) (r : GeneRecord) : Prop :=
  ∃ g ∈ xs, ∃ info, (get_gene_info env g.id).1 = some info ∧ r = mkRecord info ∧
    (∃ s, info.display_name = some s ∧ pyInStr p s = true) ∧
    chromOk info.seq_region_name = true

/-- `r` is a row produced for pattern `p` from that pattern's actual
search result. -/
def harvested (env : Env) (p : String) (r : GeneRecord) : Prop :=
  ∃ xs, (search_genes env p).1 = some xs ∧ fromLookup env p xs r

theorem chromOk_iff (o : Option String) :
    chromOk o = true ↔ ∃ c, o = some c ∧ c ∈ canonical_chromosomes := by
  cases o <;> simp [chromOk]

theorem drop_duplicates_cons_mem (seen : List (Option String)) (a : GeneRecord)
    (l : List GeneRecord) (h : a.gene_id ∈ seen) :
    drop_duplicates seen (a :: l) = drop_duplicates seen l := by
  simp [drop_duplicates, h]

theorem drop_duplicates_cons_not_mem (seen : List (Option String)) (a : GeneRecord)
    (l : List GeneRecord) (h : a.gene_id ∉ seen) :
    drop_duplicates seen (a :: l) = a :: drop_duplicates (a.gene_id :: seen) l := by
  simp [drop_duplicates, h]

theorem drop_duplicates_subset :
    ∀ (l : List GeneRecord) (seen : List (Option String)) (r : GeneRecord),
      r ∈ drop_duplicates seen l → r ∈ l := by
  intro l
  induction l with
  | nil => intro seen r h; simp [drop_duplicates] at h
  | cons a l ih =>
    intro seen r h
    by_cases hmem : a.gene_id ∈ seen
    · rw [drop_duplicates_cons_mem _ _ _ hmem] at h
      exact List.mem_cons_of_mem _ (ih seen r h)
    · rw [drop_duplicates_cons_not_mem _ _ _ hmem] at h
      rcases List.mem_cons.mp h with he | h'
      · exact he ▸ List.mem_cons_self _ _
      · exact List.mem_cons_of_mem _ (ih _ r h')

theorem drop_duplicates_key_not_seen :
    ∀ (l : List GeneRecord) (seen : List (Option String)) (r : GeneRecord),
      r ∈ drop_duplicates seen l → r.gene_id ∉ seen := by
  intro l
  induction l with
  | nil => intro seen r h; simp [drop_duplicates] at h
  | cons a l ih =>
    intro seen r h
    by_cases hmem : a.gene_id ∈ seen
    · rw [drop_duplicates_cons_mem _ _ _ hmem] at h
      exact ih seen r h
    · rw [drop_duplicates_cons_not_mem _ _ _ hmem] at h
      rcases List.mem_cons.mp h with he | h'
      · exact he ▸ hmem
      · exact fun hc => ih _ r h' (List.mem_cons_of_mem _ hc)

theorem drop_duplicates_pairwise :
    ∀ (l : List GeneRecord) (seen : List (Option String)),
      (drop_duplicates seen l).Pairwise (fun a b => a.gene_id ≠ b.gene_id) := by
  intro l
  induction l with
  | nil => intro seen; simp [drop_duplicates]
  | cons a l ih =>
    intro seen
    by_cases hmem : a.gene_id ∈ seen
    · rw [drop_duplicates_cons_mem _ _ _ hmem]; exact ih seen
    · rw [drop_duplicates_cons_not_mem _ _ _ hmem]
      refine List.Pairwise.cons ?_ (ih _)
      intro b hb he
      exact drop_duplicates_key_not_seen l _ b hb (by rw [← he]; exact List.mem_cons_self _ _)

theorem drop_duplicates_eq_self :
    ∀ (l : List GeneRecord) (seen : List (Option String)),
      (∀ r ∈ l, r.gene_id ∉ seen) →
      l.Pairwise (fun a b => a.gene_id ≠ b.gene_id) →
      drop_duplicates seen l = l := by
  intro l
  induction l with
  | nil => intro seen _ _; rfl
  | cons a l ih =>
    intro seen hseen hpw
    cases hpw with
    | cons hhead htail =>
      rw [drop_duplicates_cons_not_mem _ _ _ (hseen a (List.mem_cons_self _ _))]
      congr 1
      refine ih _ ?_ htail
      intro r hr hc
      rcases List.mem_cons.mp hc with he | hs
      · exact hhead r hr he.symm
      · exact hseen r (List.mem_cons_of_mem _ hr) hs

theorem mem_drop_duplicates_iff :
    ∀ (l : List GeneRecord) (seen : List (Option String)) (r : GeneRecord),
      r ∈ drop_duplicates seen l ↔
        (r.gene_id ∉ seen ∧
          ∃ pre post, l = pre ++ r :: post ∧ ∀ x ∈ pre, x.gene_id ≠ r.gene_id) := by
  intro l
  induction l with
  | nil =>
    intro seen r
    simp only [drop_duplicates, List.not_mem_nil, false_iff]
    rintro ⟨-, pre, post, hl, -⟩
    cases pre <;> simp at hl
  | cons a l ih =>
    intro seen r
    by_cases hmem : a.gene_id ∈ seen
    · rw [drop_duplicates_cons_mem _ _ _ hmem, ih seen r]
      constructor
      · rintro ⟨hns, pre, post, hl, hpre⟩
        refine ⟨hns, a :: pre, post, by rw [hl, List.cons_append], ?_⟩
        intro x hx
        rcases List.mem_cons.mp hx with rfl | hx'
        · exact fun he => hns (he ▸ hmem)
        · exact hpre x hx'
      · rintro ⟨hns, pre, post, hl, hpre⟩
        cases pre with
        | nil =>
          simp only [List.nil_append] at hl
          injection hl with h1 h2
          exact absurd (h1 ▸ hmem) hns
        | cons b pre' =>
          simp only [List.cons_append] at hl
          injection hl with h1 h2
          exact ⟨hns, pre', post, h2,
            fun x hx => hpre x (List.mem_cons_of_mem _ hx)⟩
    · rw [drop_duplicates_cons_not_mem _ _ _ hmem]
      simp only [List.mem_cons]
      constructor
      · rintro (rfl | hdd)
        · exact ⟨hmem, [], l, rfl, by simp⟩
        · obtain ⟨hns, pre, post, hl, hpre⟩ := (ih _ r).mp hdd
          have hne : a.gene_id ≠ r.gene_id :=
            fun he => hns (by rw [← he]; exact List.mem_cons_self _ _)
          refine ⟨fun hr => hns (List.mem_cons_of_mem _ hr), a :: pre, post,
            by rw [hl, List.cons_append], ?_⟩
          intro x hx
          rcases List.mem_cons.mp hx with rfl | hx'
          · exact hne
          · exact hpre x hx'
      · rintro ⟨hns, pre, post, hl, hpre⟩
        cases pre with
        | nil =>
          left
          simp only [List.nil_append] at hl
          injection hl with h1 h2
          exact h1.symm
        | cons b pre' =>
          right
          simp only [List.cons_append] at hl
          injection hl with h1 h2
          refine (ih _ r).mpr ⟨?_, pre', post, h2,
            fun x hx => hpre x (List.mem_cons_of_mem _ hx)⟩
          intro hc
          rcases List.mem_cons.mp hc with he | hs
          · exact hpre a (h1 ▸ List.mem_cons_self _ _) he.symm
          · exact hns hs

theorem processXrefs_sound (env : Env) (p : String) :
    ∀ (xs : List GeneXref) (acc acc2 : List GeneRecord) (ev : List Event),
      processXrefs env p acc xs = (.ok acc2, ev) →
      ∀ r ∈ acc2, r ∈ acc ∨ fromLookup env p xs r := by
  intro xs
  induction xs with
  | nil =>
    intro acc acc2 ev h r hr
    simp only [processXrefs, Prod.mk.injEq] at h
    obtain ⟨h1, -⟩ := h
    cases h1
    exact Or.inl hr
  | cons g rest ih =>
    intro acc acc2 ev h r hr
    simp only [processXrefs] at h
    split at h
    · rename_i info heq
      split at h
      · simp at h
      · rename_i dn heq2
        rw [Prod.mk.injEq] at h
        obtain ⟨h1, -⟩ := h
        have hrec := ih _ acc2 _ (Prod.ext_iff.mpr ⟨h1, rfl⟩) r hr
        rcases hrec with hin | hfrom
        · cases hb : pyInStr p dn && chromOk info.seq_region_name with
          | false => simp only [hb, if_false, Bool.false_eq_true] at hin; exact Or.inl hin
          | true =>
            simp only [hb, if_true] at hin
            rcases List.mem_append.mp hin with hin' | hin'
            · exact Or.inl hin'
            · have hr' : r = mkRecord info := List.mem_singleton.mp hin'
              obtain ⟨hb1, hb2⟩ := (Bool.and_eq_true _ _).mp hb
              exact Or.inr ⟨g, List.mem_cons_self _ _, info, heq, hr', ⟨dn, heq2, hb1⟩, hb2⟩
        · obtain ⟨g', hg', rest'⟩ := hfrom
          exact Or.inr ⟨g', List.mem_cons_of_mem _ hg', rest'⟩
    · rw [Prod.mk.injEq] at h
      obtain ⟨h1, -⟩ := h
      have hrec := ih _ acc2 _ (Prod.ext_iff.mpr ⟨h1, rfl⟩) r hr
      rcases hrec with hin | hfrom
      · exact Or.inl hin
      · obtain ⟨g', hg', rest'⟩ := hfrom
        exact Or.inr ⟨g', List.mem_cons_of_mem _ hg', rest'⟩

theorem processPatterns_sound (env : Env) :
    ∀ (ps : List String) (acc acc2 : List GeneRecord) (ev : List Event),
      processPatterns env acc ps = (.ok acc2, ev) →
      ∀ r ∈ acc2, r ∈ acc ∨ ∃ p ∈ ps, harvested env p r := by
  intro ps
  induction ps with
  | nil =>
    intro acc acc2 ev h r hr
    simp only [processPatterns, Prod.mk.injEq] at h
    obtain ⟨h1, -⟩ := h
    cases h1
    exact Or.inl hr
  | cons p rest ih =>
    intro acc acc2 ev h r hr
    simp only [processPatterns] at h
    split at h
    · rename_i g gs heq
      split at h
      · rename_i accm heqx
        rw [Prod.mk.injEq] at h
        obtain ⟨h1, -⟩ := h
        have hrec := ih _ acc2 _ (Prod.ext_iff.mpr ⟨h1, rfl⟩) r hr
        rcases hrec with hin | ⟨p', hp', hh⟩
        · have hx := processXrefs_sound env p (g :: gs) acc accm _
            (Prod.ext_iff.mpr ⟨heqx, rfl⟩) r hin
          rcases hx with hin' | hfrom
          · exact Or.inl hin'
          · exact Or.inr ⟨p, List.mem_cons_self _ _, g :: gs, heq, hfrom⟩
        · exact Or.inr ⟨p', List.mem_cons_of_mem _ hp', hh⟩
      · simp at h
    · rw [Prod.mk.injEq] at h
      obtain ⟨h1, -⟩ := h
      have hrec := ih _ acc2 _ (Prod.ext_iff.mpr ⟨h1, rfl⟩) r hr
      rcases hrec with hin | ⟨p', hp', hh⟩
      · exact Or.inl hin
      · exact Or.inr ⟨p', List.mem_cons_of_mem _ hp', hh⟩

theorem countSleeps_append (a b : List Event) :
    countSleeps (a ++ b) = countSleeps a + countSleeps b := by
  induction a with
  | nil => simp [countSleeps]
  | cons e es ih => cases e <;> simp [countSleeps, ih] <;> omega

theorem countWrites_append (a b : List Event) :
    countWrites (a ++ b) = countWrites a + countWrites b := by
  induction a with
  | nil => simp [countWrites]
  | cons e es ih => cases e <;> simp [countWrites, ih] <;> omega

theorem lookupCalls_append (a b : List Event) :
    lookupCalls (a ++ b) = lookupCalls a ++ lookupCalls b := by
  induction a with
  | nil => simp [lookupCalls]
  | cons e es ih => cases e <;> simp [lookupCalls, ih]

theorem search_genes_events (env : Env) (q : String) :
    countSleeps (search_genes env q).2 = 0 ∧ countWrites (search_genes env q).2 = 0 ∧
      lookupCalls (search_genes env q).2 = [] := by
  unfold search_genes
  split
  · simp [countSleeps, countWrites, lookupCalls]
  · split <;> simp [countSleeps, countWrites, lookupCalls]

theorem get_gene_info_events (env : Env) (i : Option String) :
    countSleeps (get_gene_info env i).2 = 0 ∧ countWrites (get_gene_info env i).2 = 0 ∧
      lookupCalls (get_gene_info env i).2 = [i] := by
  unfold get_gene_info
  split
  · simp [countSleeps, countWrites, lookupCalls]
  · split <;> simp [countSleeps, countWrites, lookupCalls]

theorem countSleeps_cons_sleep (ms : Nat) (es : List Event) :
    countSleeps (Event.sleep ms :: es) = countSleeps es + 1 := rfl

theorem countSleeps_cons_print (m : String) (es : List Event) :
    countSleeps (Event.print m :: es) = countSleeps es := rfl

theorem countWrites_cons_print (m : String) (es : List Event) :
    countWrites (Event.print m :: es) = countWrites es := rfl

theorem lookupCalls_cons_sleep (ms : Nat) (es : List Event) :
    lookupCalls (Event.sleep ms :: es) = lookupCalls es := rfl

theorem processXrefs_sleeps (env : Env) (p : String) :
    ∀ (xs : List GeneXref) (acc acc2 : List GeneRecord) (ev : List Event),
      processXrefs env p acc xs = (.ok acc2, ev) → countSleeps ev = xs.length := by
  intro xs
  induction xs with
  | nil =>
    intro acc acc2 ev h
    simp only [processXrefs, Prod.mk.injEq] at h
    obtain ⟨-, h2⟩ := h
    rw [← h2]; rfl
  | cons g rest ih =>
    intro acc acc2 ev h
    simp only [processXrefs] at h
    split at h
    · split at h
      · simp at h
      · rw [Prod.mk.injEq] at h
        obtain ⟨h1, h2⟩ := h
        have hx := ih _ acc2 _ (Prod.ext_iff.mpr ⟨h1, rfl⟩)
        rw [← h2, countSleeps_append, (get_gene_info_events env g.id).1,
          countSleeps_cons_sleep, hx, List.length_cons]
        omega
    · rw [Prod.mk.injEq] at h
      obtain ⟨h1, h2⟩ := h
      have hx := ih _ acc2 _ (Prod.ext_iff.mpr ⟨h1, rfl⟩)
      rw [← h2, countSleeps_append, (get_gene_info_events env g.id).1,
        countSleeps_cons_sleep, hx, List.length_cons]
      omega

theorem processXrefs_writes (env : Env) (p : String) :
    ∀ (xs : List GeneXref) (acc : List GeneRecord),
      countWrites (processXrefs env p acc xs).2 = 0 := by
  intro xs
  induction xs with
  | nil => intro acc; rfl
  | cons g rest ih =>
    intro acc
    simp only [processXrefs]
    split
    · split
    
      · exact (get_gene_info_events env g.id).2.1
      · rw [countWrites_append, (get_gene_info_events env g.id).2.1]
        show 0 + countWrites (Event.sleep 100 :: _) = 0
        rw [show ∀ es, countWrites (Event.sleep 100 :: es) = countWrites es from fun _ => rfl, ih]
    · rw [countWrites_append, (get_gene_info_events env g.id).2.1]
      show 0 + countWrites (Event.sleep 100 :: _) = 0
      rw [show ∀ es, countWrites (Event.sleep 100 :: es) = countWrites es from fun _ => rfl, ih]

theorem processXrefs_lookup_calls (env : Env) (p : String) :
    ∀ (xs : List GeneXref) (acc acc2 : List GeneRecord) (ev : List Event),
      processXrefs env p acc xs = (.ok acc2, ev) →
      lookupCalls ev = xs.map GeneXref.id := by
  intro xs
  induction xs with
  | nil =>
    intro acc acc2 ev h
    simp only [processXrefs, Prod.mk.injEq] at h
    obtain ⟨-, h2⟩ := h
    rw [← h2]; rfl
  | cons g rest ih =>
    intro acc acc2 ev h
    simp only [processXrefs] at h
    split at h
    · split at h
      · simp at h
      · rw [Prod.mk.injEq] at h
        obtain ⟨h1, h2⟩ := h
        have hx := ih _ acc2 _ (Prod.ext_iff.mpr ⟨h1, rfl⟩)
        rw [← h2, lookupCalls_append, (get_gene_info_events env g.id).2.2,
          lookupCalls_cons_sleep, hx, List.map_cons]
        rfl
    · rw [Prod.mk.injEq] at h
      obtain ⟨h1, h2⟩ := h
      have hx := ih _ acc2 _ (Prod.ext_iff.mpr ⟨h1, rfl⟩)
      rw [← h2, lookupCalls_append, (get_gene_info_events env g.id).2.2,
        lookupCalls_cons_sleep, hx, List.map_cons]
      rfl

theorem processPatterns_writes (env : Env) :
    ∀ (ps : List String) (acc : List GeneRecord),
      countWrites (processPatterns env acc ps).2 = 0 := by
  intro ps
  induction ps with
  | nil => intro acc; rfl
  | cons p rest ih =>
    intro acc
    simp only [processPatterns]
    split
    · split
      · dsimp only
        rw [countWrites_append, countWrites_append, countWrites_cons_print,
          (search_genes_events env p).2.1, processXrefs_writes, ih]
      · dsimp only
        rw [countWrites_append, countWrites_cons_print,
          (search_genes_events env p).2.1, processXrefs_writes]
    · dsimp only
      rw [countWrites_append, countWrites_cons_print,
        (search_genes_events env p).2.1, ih]

theorem processPatterns_sleeps (env : Env) :
    ∀ (ps : List String) (acc acc2 : List GeneRecord) (ev : List Event),
      processPatterns env acc ps = (.ok acc2, ev) →
      countSleeps ev = (ps.map (xrefBudget env)).sum := by
  intro ps
  induction ps with
  | nil =>
    intro acc acc2 ev h
    simp only [processPatterns, Prod.mk.injEq] at h
    obtain ⟨-, h2⟩ := h
    rw [← h2]; rfl
  | cons p rest ih =>
    intro acc acc2 ev h
    simp only [processPatterns] at h
    split at h
    · rename_i g gs heq
      split at h
      · rename_i accm heqx
        rw [Prod.mk.injEq] at h
        obtain ⟨h1, h2⟩ := h
        have hx := processXrefs_sleeps env p (g :: gs) acc accm _
          (Prod.ext_iff.mpr ⟨heqx, rfl⟩)
        have hr := ih _ acc2 _ (Prod.ext_iff.mpr ⟨h1, rfl⟩)
        have hb : xrefBudget env p = (g :: gs).length := by
          unfold xrefBudget
          rw [heq]
        rw [← h2, countSleeps_append, countSleeps_append, countSleeps_cons_print,
          (search_genes_events env p).1, hx, hr, List.map_cons, List.sum_cons, hb]
        omega
      · simp at h
    · rename_i hno
      rw [Prod.mk.injEq] at h
      obtain ⟨h1, h2⟩ := h
      have hr := ih _ acc2 _ (Prod.ext_iff.mpr ⟨h1, rfl⟩)
      have hb : xrefBudget env p = 0 := by
        unfold xrefBudget
        split
        · rename_i g gs heq; exact absurd heq (hno g gs)
        · rfl
      rw [← h2, countSleeps_append, countSleeps_cons_print,
        (search_genes_events env p).1, hr, List.map_cons, List.sum_cons, hb]

theorem processPatterns_all_null (env : Env) (h : ∀ q, (search_genes env q).1 = none) :
    ∀ (ps : List String) (acc : List GeneRecord),
      (processPatterns env acc ps).1 = .ok acc := by
  intro ps
  induction ps with
  | nil => intro acc; rfl
  | cons p rest ih =>
    intro acc
    simp only [processPatterns]
    split
    · rename_i g gs heq
      rw [h p] at heq
      exact Option.noConfusion heq
    · exact ih acc

theorem driver_ok_table (env : Env) (df : List GeneRecord)
    (h : (search_trna_synthetases env).1 = .ok (some df)) :
    ∃ al, (processPatterns env [] patterns).1 = .ok al ∧ df = drop_duplicates [] al := by
  unfold search_trna_synthetases at h
  split at h
  · simp at h
  · simp at h
  · rename_i g gs ev heq
    dsimp only at h
    rw [Except.ok.injEq, Option.some.injEq] at h
    exact ⟨g :: gs, by rw [heq], h.symm⟩

theorem driver_trace (env : Env) :
    (search_trna_synthetases env).2 = (processPatterns env [] patterns).2 := by
  unfold search_trna_synthetases
  split <;> rename_i heq <;> rw [heq]

theorem mainEntry_none_shape (env : Env) (h : (search_trna_synthetases env).1 = .ok none) :
    mainEntry env = (.ok (), Event.print "Searching for tRNA synthetase genes in Ensembl..." ::
      (search_trna_synthetases env).2 ++ [Event.print "No results found or error occurred"]) := by
  unfold mainEntry
  split
  · rename_i e ev heq
    rw [heq] at h
    simp at h
  · rename_i ev heq
    rw [heq]
  · rename_i results ev heq
    rw [heq] at h
    simp at h

/-! ### Claims -/

/-- Claim C1 (code bug): the spec says a lookup response lacking
`display_name` is excluded by the inclusion filters without raising.
The code instead evaluates `pattern in None`, which raises `TypeError`:
running the driver in an environment whose lookup response has no
`display_name` aborts with that exception instead of filtering the
record out. -/
theorem missing_display_name_raises_type_error :
    (search_trna_synthetases envMissingDisplay).1 = .error (.typeError tyErrMsg) := rfl

/-- Claim C2 (code bug): the spec says the program terminates normally on
every sequence of remote responses, including malformed ones.  A lookup
response without `display_name` makes `main` abort with an uncaught
`TypeError`, so termination is not normal on all malformed responses. -/
theorem main_aborts_on_missing_display_name :
    (mainEntry envMissingDisplay).1 = .error (.typeError tyErrMsg) := rfl

/-- Claim C3: every record of the final table has a canonical chromosome
(`"1"`..`"22"`, `"X"`, `"Y"`, `"MT"`); lookups with a missing or
non-canonical `seq_region_name` contribute no record. -/
theorem final_table_chromosomes_canonical (env : Env) (df : List GeneRecord)
    (h : (search_trna_synthetases env).1 = .ok (some df)) :
    ∀ r ∈ df, ∃ c, r.chromosome = some c ∧ c ∈ canonical_chromosomes := by
  obtain ⟨al, hal, hdf⟩ := driver_ok_table env df h
  intro r hr
  rw [hdf] at hr
  have hmem := drop_duplicates_subset al [] r hr
  have hx := processPatterns_sound env patterns [] al _
    (Prod.ext_iff.mpr ⟨hal, rfl⟩) r hmem
  rcases hx with hin | hx
  · exact absurd hin (List.not_mem_nil r)
  · simp only [harvested, fromLookup] at hx
    obtain ⟨p, hp, xs, hxs, g, hg, info, hinfo, hrec, -, hchrom⟩ := hx
    obtain ⟨c, hc, hmemc⟩ := (chromOk_iff info.seq_region_name).mp hchrom
    exact ⟨c, by rw [hrec]; exact hc, hmemc⟩

/-- Witness for C3: in `envChrom` the only surviving record is the one on
chromosome 16; the scaffold and the missing-`seq_region_name` lookups are
excluded, and the theorem applies to the resulting table. -/
theorem final_table_chromosomes_canonical_witness :
    (search_trna_synthetases envChrom).1 = .ok (some [mkRecord infoAARS1]) ∧
    ∀ r ∈ [mkRecord infoAARS1], ∃ c, r.chromosome = some c ∧ c ∈ canonical_chromosomes :=
  ⟨rfl, final_table_chromosomes_canonical envChrom [mkRecord infoAARS1] rfl⟩

/-- Claim C4: every record of the final table carries a symbol that
contains its originating search pattern as a substring (substring
containment, not equality). -/
theorem final_table_symbol_has_pattern (env : Env) (df : List GeneRecord)
    (h : (search_trna_synthetases env).1 = .ok (some df)) :
    ∀ r ∈ df, ∃ p ∈ patterns, ∃ s, r.symbol = some s ∧ pyInStr p s = true := by
  obtain ⟨al, hal, hdf⟩ := driver_ok_table env df h
  intro r hr
  rw [hdf] at hr
  have hmem := drop_duplicates_subset al [] r hr
  have hx := processPatterns_sound env patterns [] al _
    (Prod.ext_iff.mpr ⟨hal, rfl⟩) r hmem
  rcases hx with hin | hx
  · exact absurd hin (List.not_mem_nil r)
  · simp only [harvested, fromLookup] at hx
    obtain ⟨p, hp, xs, hxs, g, hg, info, hinfo, hrec, ⟨s, hdisp, hsub⟩, -⟩ := hx
    exact ⟨p, hp, s, by rw [hrec]; exact hdisp, hsub⟩

/-- Witness for C4: the pseudogene symbol `AARS1P1`, which strictly
contains pattern `AARS1` without being equal to it, is included. -/
theorem final_table_symbol_has_pattern_witness :
    (search_trna_synthetases envPseudo).1 = .ok (some [mkRecord infoPseudo]) ∧
    (∀ r ∈ [mkRecord infoPseudo], ∃ p ∈ patterns, ∃ s, r.symbol = some s ∧ pyInStr p s = true) ∧
    pyInStr "AARS1" "AARS1P1" = true ∧ "AARS1P1" ≠ "AARS1" :=
  ⟨rfl, final_table_symbol_has_pattern envPseudo [mkRecord infoPseudo] rfl,
    by decide, by decide⟩

/-- Claim C5: the final table has pairwise distinct `gene_id`s,
deduplicating it again leaves it unchanged (idempotence), and a record
survives `drop_duplicates` exactly when it is the first occurrence of
its `gene_id` in traversal order (so the surviving row carries the
first-encountered field values). -/
theorem final_table_dedup_by_gene_id (env : Env) (df : List GeneRecord)
    (h : (search_trna_synthetases env).1 = .ok (some df)) :
    df.Pairwise (fun a b => a.gene_id ≠ b.gene_id) ∧
    drop_duplicates [] df = df ∧
    ∀ (l : List GeneRecord) (r : GeneRecord),
      r ∈ drop_duplicates [] l ↔
        ∃ pre post, l = pre ++ r :: post ∧ ∀ x ∈ pre, x.gene_id ≠ r.gene_id := by
  obtain ⟨al, hal, hdf⟩ := driver_ok_table env df h
  subst hdf
  refine ⟨drop_duplicates_pairwise al [], ?_, ?_⟩
  · exact drop_duplicates_eq_self _ []
      (fun r hr => List.not_mem_nil _) (drop_duplicates_pairwise al [])
  · intro l r
    rw [mem_drop_duplicates_iff l [] r]
    simp only [List.not_mem_nil, not_false_iff, true_and]

/-- Witness for C5: two different patterns (AARS1 and CARS1) resolve to
the same cross-reference id, and the final table holds exactly one row
for that id. -/
theorem final_table_dedup_by_gene_id_witness :
    (search_trna_synthetases envDup).1 = .ok (some [mkRecord infoShared]) ∧
    ([mkRecord infoShared] : List GeneRecord).Pairwise (fun a b => a.gene_id ≠ b.gene_id) ∧
    drop_duplicates [] [mkRecord infoShared] = [mkRecord infoShared] := by
  have h := final_table_dedup_by_gene_id envDup [mkRecord infoShared] rfl
  exact ⟨rfl, h.1, h.2.1⟩

/-- Claim C6: the two HTTP client operations never raise to their
caller: on a transport failure or a non-success (4xx/5xx) status they
print a diagnostic and return `None`; on success they return the parsed
body.  The statement covers all three cases for both wrappers, so the
result is always one of the listed non-raising outcomes. -/
theorem http_wrappers_error_contract (env : Env) (q : String) (i : Option String) :
    ((∀ e, env.search q = .exn e →
        search_genes env q =
          (none, [.searchCall q, .print ("Error querying Ensembl: " ++ e)])) ∧
     (∀ st b, env.search q = .ok st b → 400 ≤ st → st < 600 →
        ∃ d, search_genes env q =
          (none, [.searchCall q, .print ("Error querying Ensembl: " ++ d)])) ∧
     (∀ st b, env.search q = .ok st b → st < 400 →
        search_genes env q = (some b, [.searchCall q]))) ∧
    ((∀ e, env.lookup i = .exn e →
        get_gene_info env i =
          (none, [.lookupCall i, .print ("Error fetching gene info: " ++ e)])) ∧
     (∀ st b, env.lookup i = .ok st b → 400 ≤ st → st < 600 →
        ∃ d, get_gene_info env i =
          (none, [.lookupCall i, .print ("Error fetching gene info: " ++ d)])) ∧
     (∀ st b, env.lookup i = .ok st b → st < 400 →
        get_gene_info env i = (some b, [.lookupCall i]))) := by
  constructor
  · refine ⟨?_, ?_, ?_⟩
    · intro e he
      unfold search_genes
      rw [he]
    · intro st b hb h4 h6
      unfold search_genes
      rw [hb]
      dsimp only
      unfold raise_for_status
      by_cases h5 : st < 500
      · rw [if_pos ⟨h4, h5⟩]
        exact ⟨_, rfl⟩
      · rw [if_neg (by omega), if_pos ⟨by omega, h6⟩]
        exact ⟨_, rfl⟩
    · intro st b hb h4
      unfold search_genes
      rw [hb]
      dsimp only
      unfold raise_for_status
      rw [if_neg (by omega), if_neg (by omega)]
  · refine ⟨?_, ?_, ?_⟩
    · intro e he
      unfold get_gene_info
      rw [he]
    · intro st b hb h4 h6
      unfold get_gene_info
      rw [hb]
      dsimp only
      unfold raise_for_status
      by_cases h5 : st < 500
      · rw [if_pos ⟨h4, h5⟩]
        exact ⟨_, rfl⟩
      · rw [if_neg (by omega), if_pos ⟨by omega, h6⟩]
        exact ⟨_, rfl⟩
    · intro st b hb h4
      unfold get_gene_info
      rw [hb]
      dsimp only
      unfold raise_for_status
      rw [if_neg (by omega), if_neg (by omega)]

/-- Witness for C6: a failing search transport, a successful search, a
404 lookup and a successful lookup, all at concrete inputs. -/
theorem http_wrappers_error_contract_witness :
    search_genes envWrap "CARS1" =
      (none, [.searchCall "CARS1", .print "Error querying Ensembl: read timeout"]) ∧
    search_genes envWrap "AARS1" =
      (some [{ id := some "ENSG00000090861" }], [.searchCall "AARS1"]) ∧
    (∃ d, get_gene_info envWrap (some "ENSG_X") =
      (none, [.lookupCall (some "ENSG_X"), .print ("Error fetching gene info: " ++ d)])) ∧
    get_gene_info envWrap (some "ENSG00000090861") =
      (some infoAARS1, [.lookupCall (some "ENSG00000090861")]) := by
  refine ⟨?_, ?_, ?_, ?_⟩
  · exact (http_wrappers_error_contract envWrap "CARS1" (some "ENSG_X")).1.1
      "read timeout" rfl
  · exact (http_wrappers_error_contract envWrap "AARS1" (some "ENSG_X")).1.2.2
      200 [{ id := some "ENSG00000090861" }] rfl (by omega)
  · exact (http_wrappers_error_contract envWrap "AARS1" (some "ENSG_X")).2.2.1
      404 infoAARS1 rfl (by omega) (by omega)
  · exact (http_wrappers_error_contract envWrap "AARS1" (some "ENSG00000090861")).2.2.2
      200 infoAARS1 rfl (by omega)

/-- Claim C7: when the run ends with an empty accumulator (the driver
returns `None`), `main` writes no CSV and prints the no-results message;
in particular a search returning `None` for every pattern leaves the
accumulator empty. -/
theorem empty_accumulator_no_csv (env : Env)
    (h : (search_trna_synthetases env).1 = .ok none) :
    countWrites (mainEntry env).2 = 0 ∧
    Event.print "No results found or error occurred" ∈ (mainEntry env).2 ∧
    ∀ env2 : Env, (∀ q, (search_genes env2 q).1 = none) →
      (search_trna_synthetases env2).1 = .ok none := by
  have hshape := mainEntry_none_shape env h
  refine ⟨?_, ?_, ?_⟩
  · rw [hshape]
    dsimp only
    rw [countWrites_append, countWrites_cons_print, driver_trace, processPatterns_writes]
    rfl
  · rw [hshape]
    dsimp only
    simp
  · intro env2 hnull
    have hall := processPatterns_all_null env2 hnull patterns []
    unfold search_trna_synthetases
    split
    · rename_i e ev heq
      rw [heq] at hall
      simp at hall
    · rfl
    · rename_i g gs ev heq
      rw [heq] at hall
      simp at hall

/-- Witness for C7: with every request failing at transport level the
driver returns `None`, no CSV event occurs and the no-results line is
printed. -/
theorem empty_accumulator_no_csv_witness :
    (search_trna_synthetases envAllFail).1 = .ok none ∧
    countWrites (mainEntry envAllFail).2 = 0 ∧
    Event.print "No results found or error occurred" ∈ (mainEntry envAllFail).2 := by
  have h := empty_accumulator_no_csv envAllFail rfl
  exact ⟨rfl, h.1, h.2.1⟩

/-- Claim C8 counterexample: the spec says one 100 ms delay is performed
per search pattern.  In `envTwoXrefs` the single productive pattern
returns two cross-references and the run performs 2 sleeps while 37
patterns are processed, so the number of delay events is not the number
of patterns processed. -/
theorem sleep_count_not_per_pattern :
    countSleeps (search_trna_synthetases envTwoXrefs).2 = 2 ∧
    patterns.length = 37 ∧ (2 : Nat) ≠ 37 :=
  ⟨by decide, by decide, by decide⟩

/-- Claim C8 (amended): the 100 ms delay executes once per
cross-reference of a truthy search result (after that cross-reference's
lookup is processed), not once per pattern: the inner loop over `xs`
performs exactly `xs.length` sleeps. -/
theorem sleep_once_per_xref (env : Env) (p : String) (xs : List GeneXref)
    (acc acc2 : List GeneRecord) (ev : List Event)
    (h : processXrefs env p acc xs = (.ok acc2, ev)) :
    countSleeps ev = xs.length :=
  processXrefs_sleeps env p xs acc acc2 ev h

/-- Witness for the amended C8: two cross-references yield exactly two
sleeps. -/
theorem sleep_once_per_xref_witness :
    countSleeps [Event.lookupCall (some "ENSG00000090861"), Event.sleep 100,
      Event.lookupCall (some "ENSG_B"), Event.sleep 100] = 2 :=
  sleep_once_per_xref envTwoXrefs "AARS1"
    [{ id := some "ENSG00000090861" }, { id := some "ENSG_B" }] []
    [mkRecord infoAARS1, mkRecord infoAARS1B]
    [Event.lookupCall (some "ENSG00000090861"), Event.sleep 100,
      Event.lookupCall (some "ENSG_B"), Event.sleep 100] rfl

/-- Claim C9: the inner loop invokes the detail lookup once for every
returned cross-reference with exactly that cross-reference's (possibly
absent) `id` - there is no guard on the presence of `id` - and every
record that reaches the accumulator comes from a lookup that returned a
body, so a cross-reference is dropped only when its lookup returns
`None` (or when the filters reject it). -/
theorem lookup_invoked_for_every_xref (env : Env) (p : String) (xs : List GeneXref)
    (acc acc2 : List GeneRecord) (ev : List Event)
    (h : processXrefs env p acc xs = (.ok acc2, ev)) :
    lookupCalls ev = xs.map GeneXref.id ∧
    ∀ r ∈ acc2, r ∈ acc ∨ ∃ g ∈ xs, ∃ info,
      (get_gene_info env g.id).1 = some info ∧ r = mkRecord info := by
  refine ⟨processXrefs_lookup_calls env p xs acc acc2 ev h, ?_⟩
  intro r hr
  rcases processXrefs_sound env p xs acc acc2 ev h r hr with hin | hf
  · exact Or.inl hin
  · simp only [fromLookup] at hf
    obtain ⟨g, hg, info, hinfo, hrec, -, -⟩ := hf
    exact Or.inr ⟨g, hg, info, hinfo, hrec⟩

/-- Witness for C9: a cross-reference with no `id` is still looked up
(with the null identifier), its lookup 404s, and no record survives. -/
theorem lookup_invoked_for_every_xref_witness :
    lookupCalls [Event.lookupCall none,
        Event.print "Error fetching gene info: 404 Client Error", Event.sleep 100] =
      [(none : Option String)] ∧
    ∀ r ∈ ([] : List GeneRecord), r ∈ ([] : List GeneRecord) ∨
      ∃ g ∈ [({ id := none } : GeneXref)], ∃ info,
        (get_gene_info envNullId g.id).1 = some info ∧ r = mkRecord info := by
  have h := lookup_invoked_for_every_xref envNullId "AARS1" [{ id := none }] [] []
    [Event.lookupCall none, Event.print "Error fetching gene info: 404 Client Error",
      Event.sleep 100] rfl
  exact ⟨h.1, h.2⟩

/-- Claim C10: over a run that completes without an exception, the total
number of sleeps equals the total number of cross-references across the
patterns whose search returned a non-empty list (patterns whose search
returned `None` or `[]` contribute zero). -/
theorem total_sleeps_eq_total_xrefs (env : Env) (res : Option (List GeneRecord))
    (h : (search_trna_synthetases env).1 = .ok res) :
    countSleeps (search_trna_synthetases env).2 = (patterns.map (xrefBudget env)).sum := by
  rw [driver_trace]
  unfold search_trna_synthetases at h
  split at h
  · simp at h
  · rename_i ev heq
    rw [heq]
    exact processPatterns_sleeps env patterns [] [] ev heq
  · rename_i g gs ev heq
    rw [heq]
    exact processPatterns_sleeps env patterns [] (g :: gs) ev heq

/-- Witness for C10: in `envMixed` one pattern returns three
cross-references (one lookup fails, one record is filtered out, one is
kept), another returns an empty list, the rest fail: the run sleeps
exactly 3 times, the total cross-reference count. -/
theorem total_sleeps_eq_total_xrefs_witness :
    countSleeps (search_trna_synthetases envMixed).2 = 3 ∧
    (patterns.map (xrefBudget envMixed)).sum = 3 := by
  have h := total_sleeps_eq_total_xrefs envMixed (some [mkRecord infoAARS1]) rfl
  exact ⟨by rw [h]; decide, by decide⟩
